import Mathlib

/-!
Shallow embedding of the cafe-backend order pipeline (order service,
print service, print controller) and proofs of the specification claims.

Conventions of the embedding:
  * JavaScript numbers holding currency are modelled as exact rationals
    (`ℚ`); `Math.round` is round-half-up toward positive infinity.
  * Database tables are lists of records; `findUnique` is `List.find?`,
    `updateMany`/`update` are maps over the list.
  * Thrown `Error`s are modelled by an `Except` with a structured error
    type whose constructors mirror the thrown messages.
  * Calls to the external payment gateway and status-persisting writes
    are recorded in an event trace so that ordering claims can be stated.
-/

namespace Cafe

/-- Model of JavaScript `Math.round`: rounds half toward positive infinity. -/
def jsRound (q : ℚ) : ℤ := ⌊q + 1/2⌋

/-- Rounding to two decimals as written in the source: `Math.round(x * 100) / 100`. -/
def round2 (q : ℚ) : ℚ := (jsRound (q * 100) : ℚ) / 100

/-- The fixed tax rate constant from the order service (`TAX_RATE = 0.0635`). -/
def TAX_RATE : ℚ := 635 / 10000

/-- Modifier snapshot carried inside a validated order item
(`{id, name, priceAdjustment}`). -/
structure ModifierSnapshot where
  id : Nat
  name : String
  priceAdjustment : ℚ
deriving DecidableEq, Repr

/-- Printer destination of a menu item. -/
inductive PrinterDestination where
  | KITCHEN
  | BEVERAGE
  | BOTH
deriving DecidableEq, Repr

/-- Menu item snapshot inside a `ValidatedOrderItem`. -/
structure MenuItemSnapshot where
  id : Nat
  name : String
  basePrice : ℚ
  preparationTime : Nat
  printerDestination : PrinterDestination
deriving DecidableEq, Repr

/-- The `ValidatedOrderItem` record produced by `validateOrderItems`. -/
structure ValidatedOrderItem where
  menuItem : MenuItemSnapshot
  quantity : Nat
  modifiers : List ModifierSnapshot
  specialInstructions : Option String
  unitPrice : ℚ
  totalPrice : ℚ
deriving DecidableEq, Repr

/-- The `OrderTotals` record returned by `calculateOrderTotals`. -/
structure OrderTotals where
  subtotal : ℚ
  taxAmount : ℚ
  totalAmount : ℚ
deriving DecidableEq, Repr

/-- Source `calculateItemPrice`: base price plus the sum of the modifiers'
price adjustments, rounded to two decimals. -/
def calculateItemPrice (basePrice : ℚ) (modifiers : List ModifierSnapshot) : ℚ :=
  round2 (basePrice + (modifiers.map (·.priceAdjustment)).sum)

/-- Source `calculateOrderTotals`: raw subtotal is the sum of the line totals;
tax is the raw subtotal times `TAX_RATE` rounded to two decimals; the returned
subtotal and total are rounded to two decimals. -/
def calculateOrderTotals (items : List ValidatedOrderItem) : OrderTotals :=
  let subtotal := (items.map (·.totalPrice)).sum
  let taxAmount := round2 (subtotal * TAX_RATE)
  let totalAmount := subtotal + taxAmount
  { subtotal := round2 subtotal
    taxAmount := taxAmount
    totalAmount := round2 totalAmount }

/-- Modifier row of the catalog (`Modifier` table): id, name, price
adjustment, availability and owning modifier group. -/
structure ModifierRow where
  id : Nat
  name : String
  priceAdjustment : ℚ
  isAvailable : Bool
  modifierGroupId : Nat
deriving DecidableEq, Repr

/-- Modifier group row (`ModifierGroup` table) as included on a menu item. -/
structure ModifierGroupRow where
  id : Nat
  name : String
  isRequired : Bool
  minSelections : Nat
  maxSelections : Option Nat
deriving DecidableEq, Repr

/-- Menu item row (`MenuItem` table) with its modifier groups included. -/
structure MenuItemRow where
  id : Nat
  name : String
  basePrice : ℚ
  isAvailable : Bool
  preparationTime : Nat
  printerDestination : PrinterDestination
  modifierGroups : List ModifierGroupRow
deriving DecidableEq, Repr

/-- The catalog visible to `validateOrderItems`: menu items (with groups)
and the global modifier table. -/
structure Catalog where
  menuItems : List MenuItemRow
  modifiers : List ModifierRow
deriving Repr

/-- One line of the client cart (`OrderItemInput`). -/
structure OrderItemInput where
  menuItemId : Nat
  quantity : Nat
  selectedModifiers : List Nat
  specialInstructions : Option String
deriving DecidableEq, Repr

/-- Order status enum (`OrderStatus` in the Prisma client). -/
inductive OrderStatus where
  | PENDING
  | CONFIRMED
  | PREPARING
  | READY
  | COMPLETED
  | CANCELLED
deriving DecidableEq, Repr

/-- Payment status enum (`PaymentStatus` in the Prisma client). -/
inductive PaymentStatus where
  | PENDING
  | PAID
  | FAILED
  | REFUNDED
deriving DecidableEq, Repr

/-- Structured counterpart of the `Error`s thrown by the order service. -/
inductive OrderErr where
  | menuItemNotFound (menuItemId : Nat)
  | menuItemUnavailable (name : String)
  | modifierNotFound (modifierId : Nat)
  | modifierUnavailable (name : String)
  | modifierMismatch (modifierName itemName : String)
  | insufficientSelections (groupName : String) (minSelections : Nat)
  | tooManySelections (groupName : String) (maxSelections : Nat)
  | paymentFailed (status : String)
  | paymentIntentError
  | confirmError
  | txError
  | orderNotFound
  | invalidTransition (current attempted : OrderStatus)
  | noPaymentToRefund
  | alreadyRefunded
  | refundExceedsTotal
deriving DecidableEq, Repr

/-- Available modifiers of a group as delivered by the nested include
`modifiers: { where: { isAvailable: true } }`. -/
def availableModifiersOf (cat : Catalog) (g : ModifierGroupRow) : List ModifierRow :=
  cat.modifiers.filter (fun m => m.modifierGroupId = g.id && m.isAvailable)

/-- Resolution of the selected modifier ids of one cart line: fetch each
modifier, check availability, check that its group belongs to the menu item. -/
def resolveModifiers (cat : Catalog) (menuItem : MenuItemRow) :
    List Nat → Except OrderErr (List ModifierSnapshot)
  | [] => .ok []
  | modifierId :: rest =>
    match cat.modifiers.find? (fun m => m.id = modifierId) with
    | none => .error (.modifierNotFound modifierId)
    | some modifier =>
      if !modifier.isAvailable then
        .error (.modifierUnavailable modifier.name)
      else if !(menuItem.modifierGroups.any (fun g => g.id = modifier.modifierGroupId)) then
        .error (.modifierMismatch modifier.name menuItem.name)
      else do
        let tail ← resolveModifiers cat menuItem rest
        .ok ({ id := modifier.id, name := modifier.name,
               priceAdjustment := modifier.priceAdjustment } :: tail)

/-- Count of resolved selected modifiers that belong to a group, matching
`selectedModifiers.filter((m) => group.modifiers.some((gm) => gm.id === m.id))`. -/
def groupSelectionCount (cat : Catalog) (g : ModifierGroupRow)
    (selected : List ModifierSnapshot) : Nat :=
  (selected.filter (fun m => (availableModifiersOf cat g).any (fun gm => gm.id = m.id))).length

/-- The modifier-group constraint loop of `validateOrderItems`. -/
def checkGroups (cat : Catalog) (selected : List ModifierSnapshot) :
    List ModifierGroupRow → Except OrderErr Unit
  | [] => .ok ()
  | g :: rest =>
    if g.isRequired && decide (0 < g.minSelections)
        && decide (groupSelectionCount cat g selected < g.minSelections) then
      .error (.insufficientSelections g.name g.minSelections)
    else
      match g.maxSelections with
      | some maxSel =>
        if groupSelectionCount cat g selected > maxSel then
          .error (.tooManySelections g.name maxSel)
        else checkGroups cat selected rest
      | none => checkGroups cat selected rest

/-- Modifier resolution and group checking of one cart line.  Note that the
modifier resolution and the modifier-group constraints are only run when the
line selects at least one modifier, exactly as in the source
(`if (item.selectedModifiers && item.selectedModifiers.length > 0)`). -/
def modifierSelectionStep (cat : Catalog) (menuItem : MenuItemRow)
    (sel : List Nat) : Except OrderErr (List ModifierSnapshot) :=
  if sel.length > 0 then
    match resolveModifiers cat menuItem sel with
    | .error e => .error e
    | .ok selected =>
      match checkGroups cat selected menuItem.modifierGroups with
      | .error e => .error e
      | .ok _ => .ok selected
  else .ok []

/-- Validation of one cart line, mirroring one iteration of the main
`validateOrderItems` loop after the modifier-selection step. -/
def validateLine (cat : Catalog) (item : OrderItemInput) :
    Except OrderErr ValidatedOrderItem :=
  match cat.menuItems.find? (fun mi => mi.id = item.menuItemId) with
  | none => .error (.menuItemNotFound item.menuItemId)
  | some menuItem =>
    if !menuItem.isAvailable then
      .error (.menuItemUnavailable menuItem.name)
    else
      match modifierSelectionStep cat menuItem item.selectedModifiers with
      | .error e => .error e
      | .ok selected =>
        let unitPrice := calculateItemPrice menuItem.basePrice selected
        .ok { menuItem := { id := menuItem.id, name := menuItem.name,
                            basePrice := menuItem.basePrice,
                            preparationTime := menuItem.preparationTime,
                            printerDestination := menuItem.printerDestination }
              quantity := item.quantity
              modifiers := selected
              specialInstructions := item.specialInstructions
              unitPrice := unitPrice
              totalPrice := unitPrice * item.quantity }

/-- Source `validateOrderItems`: validates each cart line in order, aborting
at the first error. -/
def validateOrderItems (cat : Catalog) : List OrderItemInput → Except OrderErr (List ValidatedOrderItem)
  | [] => .ok []
  | item :: rest =>
    match validateLine cat item with
    | .error e => .error e
    | .ok v =>
      match validateOrderItems cat rest with
      | .error e => .error e
      | .ok vs => .ok (v :: vs)

/-- Printer type of a print job (`PrinterType` in the Prisma client). -/
inductive PrinterType where
  | KITCHEN
  | BEVERAGE
deriving DecidableEq, Repr

/-- Print job status (`PrintStatus` in the Prisma client). -/
inductive PrintStatus where
  | PENDING
  | SENT
  | PRINTED
  | FAILED
deriving DecidableEq, Repr

/-- User fields included on an order for receipt generation. -/
structure UserRec where
  email : String
  firstName : Option String
  lastName : Option String
deriving DecidableEq, Repr

/-- Truthiness of a JavaScript `string | null` value: `null` and the empty
string are falsy. -/
def jsTruthyStr : Option String → Bool
  | none => false
  | some s => !s.isEmpty

/-- Model of the JavaScript `||` fallback on a `string | null | undefined`
value: a falsy left operand yields the right operand. -/
def jsStrOrUndefined (o : Option String) : Option String :=
  if jsTruthyStr o then o else none

/-- Persisted order item row together with the fields pulled in by the
`include`s used by the pipeline (menu item name/destination, modifier names). -/
structure OrderItemRow where
  menuItemId : Nat
  menuItemName : String
  printerDestination : PrinterDestination
  quantity : Nat
  unitPrice : ℚ
  totalPrice : ℚ
  specialInstructions : Option String
  selectedModifiers : List String
deriving DecidableEq, Repr

/-- Persisted order row (`Order` table) with its items and user included. -/
structure OrderRow where
  id : Nat
  orderNumber : Nat
  userId : Nat
  user : UserRec
  status : OrderStatus
  paymentStatus : PaymentStatus
  subtotal : ℚ
  taxAmount : ℚ
  totalAmount : ℚ
  stripePaymentIntentId : Option Nat
  estimatedReadyTime : Nat
  actualReadyTime : Option Nat
  specialInstructions : Option String
  createdAt : Nat
  items : List OrderItemRow
deriving DecidableEq, Repr

/-- One line item of a receipt payload. -/
structure ReceiptItem where
  name : String
  quantity : Nat
  modifiers : List String
  specialInstructions : Option String
deriving DecidableEq, Repr

/-- Receipt payload of a print job (`ReceiptData`).  The formatted time
string of the source is modelled as the raw `createdAt` timestamp. -/
structure ReceiptData where
  orderNumber : Nat
  orderTime : Nat
  customerName : String
  items : List ReceiptItem
  specialInstructions : Option String
deriving DecidableEq, Repr

/-- Print job row (`PrintJob` table). -/
structure PrintJobRow where
  id : Nat
  orderId : Nat
  printerType : PrinterType
  status : PrintStatus
  attempts : Nat
  lastError : Option String
  receiptData : ReceiptData
  sentAt : Option Nat
  printedAt : Option Nat
  createdAt : Nat
deriving DecidableEq, Repr

/-- Events recorded by the embedding: external gateway refund calls and
status-persisting order writes, in execution order. -/
inductive Event where
  | refundCall (intentId : Nat) (amountCents : Option ℤ)
  | persistOrderStatus (orderId : Nat) (status : OrderStatus)
deriving DecidableEq, Repr

/-- The database state threaded through the pipeline, with the event trace. -/
structure Db where
  orders : List OrderRow
  printJobs : List PrintJobRow
  nextOrderId : Nat
  nextJobId : Nat
  events : List Event
deriving DecidableEq, Repr

/-- Lookup of an order by id (`prisma.order.findUnique`). -/
def findOrder (orderId : Nat) (db : Db) : Option OrderRow :=
  db.orders.find? (fun o => o.id = orderId)

/-- Replacing the order row carrying the same id (`prisma.order.update`). -/
def updateOrderRow (o2 : OrderRow) (db : Db) : Db :=
  { db with orders := db.orders.map (fun o => if o.id = o2.id then o2 else o) }

/-- Deleting an order row by id (`prisma.order.delete`). -/
def deleteOrder (orderId : Nat) (db : Db) : Db :=
  { db with orders := db.orders.filter (fun o => !(o.id = orderId)) }

/-- Source `getItemsForPrinter`: an item routes to a printer when its
destination is `BOTH` or equals the printer type. -/
def getItemsForPrinter (items : List OrderItemRow) (printerType : PrinterType) :
    List OrderItemRow :=
  items.filter (fun item =>
    match item.printerDestination, printerType with
    | .BOTH, _ => true
    | .KITCHEN, .KITCHEN => true
    | .BEVERAGE, .BEVERAGE => true
    | _, _ => false)

/-- Customer display name used on receipts: first/last name when either is
truthy, otherwise the local part of the email. -/
def customerDisplayName (u : UserRec) : String :=
  if jsTruthyStr u.firstName || jsTruthyStr u.lastName then
    ((u.firstName.getD "") ++ " " ++ (u.lastName.getD "")).trim
  else
    u.email.takeWhile (fun c => c ≠ '@')

/-- Projection of an order item row to its receipt line. -/
def receiptItemOfRow (item : OrderItemRow) : ReceiptItem :=
  { name := item.menuItemName
    quantity := item.quantity
    modifiers := item.selectedModifiers
    specialInstructions := jsStrOrUndefined item.specialInstructions }

/-- Source `generateReceiptData`: station-filtered receipt payload. -/
def generateReceiptData (order : OrderRow) (printerType : PrinterType) : ReceiptData :=
  let relevantItems := getItemsForPrinter order.items printerType
  { orderNumber := order.orderNumber
    orderTime := order.createdAt
    customerName := customerDisplayName order.user
    items := relevantItems.map receiptItemOfRow
    specialInstructions := order.specialInstructions }

/-- Source `createPrintJobs`: one PENDING job per station that has at least
one routed item, kitchen first, each with a station-scoped receipt payload. -/
def createPrintJobs (order : OrderRow) (now : Nat) (db : Db) :
    List PrintJobRow × Db :=
  let kitchenItems := getItemsForPrinter order.items .KITCHEN
  let beverageItems := getItemsForPrinter order.items .BEVERAGE
  let step1 : List PrintJobRow × Db :=
    if kitchenItems.length > 0 then
      let job : PrintJobRow :=
        { id := db.nextJobId, orderId := order.id, printerType := .KITCHEN
          status := .PENDING, attempts := 0, lastError := none
          receiptData := generateReceiptData order .KITCHEN
          sentAt := none, printedAt := none, createdAt := now }
      ([job], { db with printJobs := db.printJobs ++ [job], nextJobId := db.nextJobId + 1 })
    else ([], db)
  let jobs1 := step1.1
  let db1 := step1.2
  if beverageItems.length > 0 then
    let job : PrintJobRow :=
      { id := db1.nextJobId, orderId := order.id, printerType := .BEVERAGE
        status := .PENDING, attempts := 0, lastError := none
        receiptData := generateReceiptData order .BEVERAGE
        sentAt := none, printedAt := none, createdAt := now }
    (jobs1 ++ [job], { db1 with printJobs := db1.printJobs ++ [job], nextJobId := db1.nextJobId + 1 })
  else (jobs1, db1)

/-- Source `markJobSent`: set the job status to SENT and stamp `sentAt`. -/
def markJobSent (jobId : Nat) (now : Nat) (db : Db) : Db :=
  { db with printJobs := db.printJobs.map (fun j =>
      if j.id = jobId then { j with status := .SENT, sentAt := some now } else j) }

/-- Source `markJobPrinted`: set the job status to PRINTED and stamp `printedAt`. -/
def markJobPrinted (jobId : Nat) (now : Nat) (db : Db) : Db :=
  { db with printJobs := db.printJobs.map (fun j =>
      if j.id = jobId then { j with status := .PRINTED, printedAt := some now } else j) }

/-- Source `markJobFailed`: set status FAILED, record the error, increment
the attempt counter. -/
def markJobFailed (jobId : Nat) (message : String) (db : Db) : Db :=
  { db with printJobs := db.printJobs.map (fun j =>
      if j.id = jobId then
        { j with status := .FAILED, lastError := some message, attempts := j.attempts + 1 }
      else j) }

/-- Predicate selected by the `updateMany` of `retryFailedJobs`:
status FAILED and fewer than 3 attempts. -/
def retryEligible (j : PrintJobRow) : Bool :=
  j.status = .FAILED && j.attempts < 3

/-- Source `retryFailedJobs`: reset every FAILED job with fewer than 3
attempts to PENDING, clear its error, and return the number of rows updated. -/
def retryFailedJobs (db : Db) : Nat × Db :=
  let count := (db.printJobs.filter retryEligible).length
  (count,
   { db with printJobs := db.printJobs.map (fun j =>
       if retryEligible j then { j with status := .PENDING, lastError := none } else j) })

/-- Source `retryJob`: unconditionally reset the job with the given id to
PENDING and clear its error. -/
def retryJob (jobId : Nat) (db : Db) : Db :=
  { db with printJobs := db.printJobs.map (fun j =>
      if j.id = jobId then { j with status := .PENDING, lastError := none } else j) }

/-- Source `getPendingJobs` of the print service: the PENDING jobs in
creation order, capped at 100 rows (`take: 100`). -/
def getPendingJobs (db : Db) : List PrintJobRow :=
  (db.printJobs.filter (fun j => j.status = .PENDING)).take 100

/-- The controller `getPendingJobs` endpoint: fetch the pending jobs, then
mark each returned job SENT with a separate update. -/
def pullPendingJobs (now : Nat) (db : Db) : List PrintJobRow × Db :=
  let jobs := getPendingJobs db
  (jobs, jobs.foldl (fun acc j => markJobSent j.id now acc) db)

/-- Model of the JavaScript `amount || Number(order.totalAmount)` fallback:
`undefined` and `0` are falsy and yield the order total. -/
def jsOrQ (amount : Option ℚ) (fallback : ℚ) : ℚ :=
  match amount with
  | none => fallback
  | some x => if x = 0 then fallback else x

/-- Source `VALID_STATUS_TRANSITIONS` table. -/
def VALID_STATUS_TRANSITIONS : OrderStatus → List OrderStatus
  | .PENDING => [.CONFIRMED, .CANCELLED]
  | .CONFIRMED => [.PREPARING, .CANCELLED]
  | .PREPARING => [.READY, .CANCELLED]
  | .READY => [.COMPLETED, .CANCELLED]
  | .COMPLETED => []
  | .CANCELLED => []

/-- Source `refundOrder`: look up the order, reject when there is no stored
payment intent, when already refunded, or when the requested amount exceeds
the total; otherwise call the gateway refund (full total when the amount is
omitted) and then persist paymentStatus REFUNDED and status CANCELLED. -/
def refundOrder (orderId : Nat) (amount : Option ℚ) (db : Db) :
    Except OrderErr OrderRow × Db :=
  match findOrder orderId db with
  | none => (.error .orderNotFound, db)
  | some o =>
    match o.stripePaymentIntentId with
    | none => (.error .noPaymentToRefund, db)
    | some intentId =>
      if o.paymentStatus = .REFUNDED then (.error .alreadyRefunded, db)
      else
        let refundAmount := jsOrQ amount o.totalAmount
        if refundAmount > o.totalAmount then (.error .refundExceedsTotal, db)
        else
          let db1 := { db with events :=
            db.events ++ [Event.refundCall intentId (some (jsRound (refundAmount * 100)))] }
          let o2 := { o with paymentStatus := PaymentStatus.REFUNDED,
                             status := OrderStatus.CANCELLED }
          let db2 := updateOrderRow o2
            { db1 with events := db1.events ++ [Event.persistOrderStatus orderId .CANCELLED] }
          (.ok o2, db2)

/-- Source `updateOrderStatus`: look up the order, validate the transition
against `VALID_STATUS_TRANSITIONS`, trigger a full refund when cancelling a
PAID order, then persist the new status (stamping `actualReadyTime` on READY). -/
def updateOrderStatus (orderId : Nat) (newStatus : OrderStatus) (now : Nat)
    (db : Db) : Except OrderErr OrderRow × Db :=
  match findOrder orderId db with
  | none => (.error .orderNotFound, db)
  | some o =>
    if ¬ (newStatus ∈ VALID_STATUS_TRANSITIONS o.status) then
      (.error (.invalidTransition o.status newStatus), db)
    else
      let afterRefund : Except OrderErr Unit × Db :=
        if newStatus = OrderStatus.CANCELLED ∧ o.paymentStatus = PaymentStatus.PAID then
          match refundOrder orderId none db with
          | (.error e, dbr) => (.error e, dbr)
          | (.ok _, dbr) => (.ok (), dbr)
        else (.ok (), db)
      match afterRefund with
      | (.error e, db1) => (.error e, db1)
      | (.ok _, db1) =>
        match findOrder orderId db1 with
        | none => (.error .orderNotFound, db1)
        | some o1 =>
          let o2 := { o1 with
            status := newStatus
            actualReadyTime :=
              if newStatus = OrderStatus.READY then some now else o1.actualReadyTime }
          (.ok o2, updateOrderRow o2
            { db1 with events := db1.events ++ [Event.persistOrderStatus orderId newStatus] })

/-- Source `generateEstimatedReadyTime`: base prep time, plus the maximum
preparation time of the items, plus 2 minutes per 5 queued items, rounded up
to the next 5-minute boundary, added to the current time. -/
def generateEstimatedReadyTime (items : List ValidatedOrderItem)
    (queuedItems : Nat) (now : Nat) : Nat :=
  let base := 5
  let withPrep :=
    if items.length > 0 then
      base + (items.map (fun item => item.menuItem.preparationTime)).foldl max 0
    else base
  let total0 := withPrep + (queuedItems / 5) * 2
  let total := ((total0 + 4) / 5) * 5
  now + total

/-- Environment of one `createOrder` run: outcomes of the external payment
gateway calls and of the fallible local steps. -/
structure PaymentEnv where
  intentCreateFails : Bool
  intentId : Nat
  confirmFails : Bool
  confirmStatus : String
  refundFails : Bool
  updateTxFails : Bool
  printFails : Bool
  queuedItems : Nat
  now : Nat

/-- Conversion of a validated item to its persisted order item row, with the
fields selected by the `include`s of the creation flow. -/
def toOrderItemRow (v : ValidatedOrderItem) : OrderItemRow :=
  { menuItemId := v.menuItem.id
    menuItemName := v.menuItem.name
    printerDestination := v.menuItem.printerDestination
    quantity := v.quantity
    unitPrice := v.unitPrice
    totalPrice := v.totalPrice
    specialInstructions := v.specialInstructions
    selectedModifiers := v.modifiers.map (·.name) }

/-- The catch-handler refund attempt of `createOrder`: when a payment intent
exists the intent is refunded in full; a failing refund is logged only. -/
def attemptRefund (env : PaymentEnv) (intentId : Nat) (db : Db) : Db :=
  if env.refundFails then db
  else { db with events := db.events ++ [Event.refundCall intentId none] }

/-- The DTO accepted by `createOrder`. -/
structure CreateOrderDTO where
  items : List OrderItemInput
  specialInstructions : Option String
  paymentMethodId : Nat
deriving Repr

/-- Source `createOrder`: validate, price, persist a provisional PENDING
order, create and confirm the payment intent, then confirm the order and
dispatch print jobs.  The catch handler refunds the intent when one was
created, and deletes the provisional order only when no intent was created
yet; the error is then re-raised. -/
def createOrder (cat : Catalog) (env : PaymentEnv) (userId : Nat) (user : UserRec)
    (data : CreateOrderDTO) (db : Db) : Except OrderErr OrderRow × Db :=
  match validateOrderItems cat data.items with
  | .error e => (.error e, db)
  | .ok validated =>
    let totals := calculateOrderTotals validated
    let est := generateEstimatedReadyTime validated env.queuedItems env.now
    let orderId := db.nextOrderId
    let row : OrderRow :=
      { id := orderId, orderNumber := orderId, userId := userId, user := user
        status := .PENDING, paymentStatus := .PENDING
        subtotal := totals.subtotal, taxAmount := totals.taxAmount
        totalAmount := totals.totalAmount
        stripePaymentIntentId := none
        estimatedReadyTime := est, actualReadyTime := none
        specialInstructions := data.specialInstructions
        createdAt := env.now
        items := validated.map toOrderItemRow }
    let db1 : Db :=
      { db with orders := db.orders ++ [row], nextOrderId := orderId + 1
                events := db.events ++ [Event.persistOrderStatus orderId .PENDING] }
    if env.intentCreateFails then
      (.error .paymentIntentError, deleteOrder orderId db1)
    else
      let intentId := env.intentId
      if env.confirmFails then
        (.error .confirmError, attemptRefund env intentId db1)
      else if env.confirmStatus ≠ "succeeded" then
        (.error (.paymentFailed env.confirmStatus), attemptRefund env intentId db1)
      else if env.updateTxFails then
        (.error .txError, attemptRefund env intentId db1)
      else
        let row2 := { row with status := OrderStatus.CONFIRMED,
                               paymentStatus := PaymentStatus.PAID,
                               stripePaymentIntentId := some intentId }
        let db2 := updateOrderRow row2
          { db1 with events := db1.events ++ [Event.persistOrderStatus orderId .CONFIRMED] }
        let db3 := if env.printFails then db2 else (createPrintJobs row2 env.now db2).2
        (.ok row2, db3)

/-- State of the two-agent model of concurrent print-agent pulls: the shared
database and the response each agent has assembled so far. -/
structure ConcState where
  db : Db
  agentA : Option (List PrintJobRow)
  agentB : Option (List PrintJobRow)
deriving Repr

/-- Atomic steps of the pull endpoint: the fetch of the pending jobs and the
subsequent marking of the fetched jobs as SENT are separate database
operations, so steps of two overlapping requests may interleave. -/
inductive PullStep where
  | fetchA
  | fetchB
  | markA
  | markB
deriving DecidableEq, Repr

/-- One scheduler step of the two-agent pull model. -/
def concStep (now : Nat) (s : ConcState) : PullStep → ConcState
  | .fetchA => { s with agentA := some (getPendingJobs s.db) }
  | .fetchB => { s with agentB := some (getPendingJobs s.db) }
  | .markA =>
    match s.agentA with
    | some jobs => { s with db := jobs.foldl (fun acc j => markJobSent j.id now acc) s.db }
    | none => s
  | .markB =>
    match s.agentB with
    | some jobs => { s with db := jobs.foldl (fun acc j => markJobSent j.id now acc) s.db }
    | none => s

/-- Running a schedule of pull steps from an initial state. -/
def runPulls (now : Nat) (s : ConcState) (schedule : List PullStep) : ConcState :=
  schedule.foldl (concStep now) s

/-! ## Concrete sample data used by scenario conjuncts, witnesses and
counterexamples -/

/-- Scenario A validated line: base price 8.95, one +0.75 modifier, quantity 2. -/
def scenarioLineItem : ValidatedOrderItem :=
  { menuItem := { id := 1, name := "Latte", basePrice := 895/100,
                  preparationTime := 5, printerDestination := .BEVERAGE }
    quantity := 2
    modifiers := [{ id := 10, name := "Oat Milk", priceAdjustment := 75/100 }]
    specialInstructions := none
    unitPrice := 97/10
    totalPrice := 97/5 }

/-- Modifier group with `minSelections = 2` and `maxSelections = 2`. -/
def sampleGroup : ModifierGroupRow :=
  { id := 7, name := "Size", isRequired := true, minSelections := 2, maxSelections := some 2 }

/-- Catalog with one available menu item carrying the required 2-to-2 group
and three available modifiers in that group. -/
def sampleCatalog : Catalog :=
  { menuItems := [{ id := 1, name := "Bowl", basePrice := 5, isAvailable := true,
                    preparationTime := 3, printerDestination := .KITCHEN,
                    modifierGroups := [sampleGroup] }]
    modifiers :=
      [ { id := 21, name := "A", priceAdjustment := 0, isAvailable := true, modifierGroupId := 7 },
        { id := 22, name := "B", priceAdjustment := 0, isAvailable := true, modifierGroupId := 7 },
        { id := 23, name := "C", priceAdjustment := 0, isAvailable := true, modifierGroupId := 7 } ] }

/-- Cart line for `sampleCatalog` selecting the given modifier ids. -/
def sampleLine (sel : List Nat) : OrderItemInput :=
  { menuItemId := 1, quantity := 1, selectedModifiers := sel, specialInstructions := none }

/-- Scenario A catalog: one item of base price 8.95 with an optional group
holding one +0.75 modifier. -/
def scenarioACatalog : Catalog :=
  { menuItems := [{ id := 1, name := "Latte", basePrice := 895/100, isAvailable := true,
                    preparationTime := 5, printerDestination := .BEVERAGE,
                    modifierGroups := [{ id := 3, name := "Milk", isRequired := false,
                                         minSelections := 0, maxSelections := none }] }]
    modifiers := [{ id := 10, name := "Oat Milk", priceAdjustment := 75/100,
                    isAvailable := true, modifierGroupId := 3 }] }

/-- Scenario A cart line: quantity 2, one modifier selected. -/
def scenarioALine : OrderItemInput :=
  { menuItemId := 1, quantity := 2, selectedModifiers := [10], specialInstructions := none }

/-- An empty database. -/
def emptyDb : Db :=
  { orders := [], printJobs := [], nextOrderId := 0, nextJobId := 0, events := [] }

/-- Payment environment in which intent creation succeeds and the
confirmation comes back with a non-succeeded status. -/
def declinedEnv : PaymentEnv :=
  { intentCreateFails := false, intentId := 42, confirmFails := false,
    confirmStatus := "requires_action", refundFails := false, updateTxFails := false,
    printFails := false, queuedItems := 0, now := 0 }

/-- Sample user record. -/
def sampleUser : UserRec := { email := "ann@example.com", firstName := some "Ann", lastName := none }

/-- Sample create-order DTO over `sampleCatalog` with a valid 2-modifier line. -/
def sampleDTO : CreateOrderDTO :=
  { items := [sampleLine [21, 22]], specialInstructions := none, paymentMethodId := 9 }

/-! ## Shared helper lemmas -/

/-- Rounding to two decimals is the identity on integer multiples of a cent. -/
theorem round2_cents (n : ℤ) : round2 ((n : ℚ) / 100) = (n : ℚ) / 100 := by
  unfold round2 jsRound
  have h1 : ((n : ℚ) / 100) * 100 = (n : ℚ) := by
    field_simp
  rw [h1, Int.floor_int_add]
  norm_num

/-- The sum of a list of cent multiples is a cent multiple. -/
theorem sum_totalPrice_cents (items : List ValidatedOrderItem)
    (h : ∀ it ∈ items, ∃ n : ℤ, it.totalPrice = (n : ℚ) / 100) :
    ∃ N : ℤ, (items.map (fun it => it.totalPrice)).sum = (N : ℚ) / 100 := by
  induction items with
  | nil => exact ⟨0, by simp⟩
  | cons a l ih =>
    obtain ⟨n, hn⟩ := h a (List.mem_cons_self a l)
    obtain ⟨N, hN⟩ := ih (fun it hit => h it (List.mem_cons_of_mem a hit))
    refine ⟨n + N, ?_⟩
    rw [List.map_cons, List.sum_cons, hn, hN]
    push_cast
    ring

/-! ## Claim C3 -/

/-- Claim C3: for validated order items (whose line totals are exact cent
amounts), `calculateOrderTotals` returns the 2-decimal-rounded sum of the line
totals as subtotal, the tax computed from that rounded subtotal at rate
0.0635 rounded to 2 decimals, and the rounded sum of subtotal and tax; the
subtotal is invariant under reordering of the items, and a subtotal of 19.40
yields tax 1.23 and total 20.63. -/
theorem C3_calculateOrderTotals_spec (items : List ValidatedOrderItem)
    (h : ∀ it ∈ items, ∃ n : ℤ, it.totalPrice = (n : ℚ) / 100) :
    (calculateOrderTotals items).subtotal
        = round2 ((items.map (fun it => it.totalPrice)).sum)
    ∧ (calculateOrderTotals items).taxAmount
        = round2 ((calculateOrderTotals items).subtotal * TAX_RATE)
    ∧ (calculateOrderTotals items).totalAmount
        = round2 ((calculateOrderTotals items).subtotal
            + (calculateOrderTotals items).taxAmount)
    ∧ (∀ items2, items.Perm items2 → calculateOrderTotals items2 = calculateOrderTotals items)
    ∧ calculateOrderTotals [scenarioLineItem]
        = { subtotal := 97/5, taxAmount := 123/100, totalAmount := 2063/100 } := by
  obtain ⟨N, hN⟩ := sum_totalPrice_cents items h
  have hid : round2 ((items.map (fun it => it.totalPrice)).sum)
      = (items.map (fun it => it.totalPrice)).sum := by
    rw [hN, round2_cents]
  refine ⟨rfl, ?_, ?_, ?_,
    by norm_num [calculateOrderTotals, scenarioLineItem, round2, jsRound, TAX_RATE,
                 Int.floor_eq_iff]⟩
  · show round2 ((items.map (fun it => it.totalPrice)).sum * TAX_RATE)
      = round2 (round2 ((items.map (fun it => it.totalPrice)).sum) * TAX_RATE)
    rw [hid]
  · show round2 ((items.map (fun it => it.totalPrice)).sum
        + round2 ((items.map (fun it => it.totalPrice)).sum * TAX_RATE))
      = round2 (round2 ((items.map (fun it => it.totalPrice)).sum)
        + round2 ((items.map (fun it => it.totalPrice)).sum * TAX_RATE))
    rw [hid]
  · intro items2 hp
    have hs : (items2.map (fun it => it.totalPrice)).sum
        = (items.map (fun it => it.totalPrice)).sum :=
      ((hp.map (fun it => it.totalPrice)).sum_eq).symm
    simp only [calculateOrderTotals, hs]

/-- Witness for C3 at the Scenario A line item. -/
theorem C3_witness :
    (calculateOrderTotals [scenarioLineItem]).taxAmount
      = round2 ((calculateOrderTotals [scenarioLineItem]).subtotal * TAX_RATE) := by
  have h := C3_calculateOrderTotals_spec [scenarioLineItem]
    (by
      intro it hit
      simp only [List.mem_singleton] at hit
      subst hit
      exact ⟨1940, by norm_num [scenarioLineItem]⟩)
  exact h.2.1

/-! ## Claim C6 -/

/-- A successful `validateLine` produces the unit price
`round2 (basePrice + sum of adjustments)` and the line total
`unitPrice * quantity`. -/
theorem validateLine_ok_price (cat : Catalog) (item : OrderItemInput)
    (v : ValidatedOrderItem) (h : validateLine cat item = .ok v) :
    v.unitPrice = round2 (v.menuItem.basePrice
        + (v.modifiers.map (fun m => m.priceAdjustment)).sum)
    ∧ v.totalPrice = v.unitPrice * v.quantity := by
  unfold validateLine at h
  split at h
  · exact absurd h (by simp)
  · split at h
    · exact absurd h (by simp)
    · split at h
      · exact absurd h (by simp)
      · simp only [Except.ok.injEq] at h
        subst h
        simp [calculateItemPrice]

/-- Every item of a successful `validateOrderItems` run satisfies the
per-line pricing equations. -/
theorem validateOrderItems_ok_price (cat : Catalog) (items : List OrderItemInput)
    (v : List ValidatedOrderItem) (h : validateOrderItems cat items = .ok v) :
    ∀ it ∈ v, it.unitPrice = round2 (it.menuItem.basePrice
        + (it.modifiers.map (fun m => m.priceAdjustment)).sum)
      ∧ it.totalPrice = it.unitPrice * it.quantity := by
  induction items generalizing v with
  | nil =>
    simp only [validateOrderItems, Except.ok.injEq] at h
    subst h
    intro it hit
    exact absurd hit (by simp)
  | cons a l ih =>
    simp only [validateOrderItems] at h
    split at h
    · exact absurd h (by simp)
    · rename_i v1 hline
      split at h
      · exact absurd h (by simp)
      · rename_i vs hrest
        simp only [Except.ok.injEq] at h
        subst h
        intro it hit
        rcases List.mem_cons.mp hit with hhead | htail
        · subst hhead
          exact validateLine_ok_price cat a it hline
        · exact ih vs hrest it htail

/-- Claim C6: for every validated cart line, the unit price is the base price
plus the sum of the selected modifiers' adjustments rounded to two decimals,
and the line total is unit price times quantity; the embedding is a pure
function, so repeated runs on the same input are identical; the Scenario A
line (base 8.95, one +0.75 modifier, quantity 2) yields unit price 9.70 and
line total 19.40. -/
theorem C6_linePricing :
    (∀ cat items v, validateOrderItems cat items = .ok v →
      ∀ it ∈ v, it.unitPrice = round2 (it.menuItem.basePrice
          + (it.modifiers.map (fun m => m.priceAdjustment)).sum)
        ∧ it.totalPrice = it.unitPrice * it.quantity)
    ∧ (∀ cat items, validateOrderItems cat items = validateOrderItems cat items)
    ∧ (validateOrderItems scenarioACatalog [scenarioALine]).map
        (fun l => l.map (fun it => (it.unitPrice, it.totalPrice)))
        = .ok [(97/10, 97/5)] := by
  refine ⟨validateOrderItems_ok_price, fun _ _ => rfl, ?_⟩
  norm_num [validateOrderItems, validateLine, modifierSelectionStep,
    resolveModifiers, checkGroups, scenarioACatalog, scenarioALine,
    calculateItemPrice, round2, jsRound, availableModifiersOf,
    groupSelectionCount, List.find?, Int.floor_eq_iff, Except.map, bind,
    Except.bind]

/-- Witness for C6 at the Scenario A run. -/
theorem C6_witness :
    ∃ v, validateOrderItems scenarioACatalog [scenarioALine] = .ok v
      ∧ ∀ it ∈ v, it.totalPrice = it.unitPrice * it.quantity := by
  cases hrun : validateOrderItems scenarioACatalog [scenarioALine] with
  | error e =>
    have h22 := C6_linePricing.2.2
    rw [hrun] at h22
    exact absurd h22 (by simp [Except.map])
  | ok v =>
    exact ⟨v, rfl, fun it hit =>
      (C6_linePricing.1 scenarioACatalog [scenarioALine] v hrun it hit).2⟩

/-! ## Claim C9 -/

/-- Claim C9: `retryFailedJobs` resets exactly the FAILED jobs with fewer
than 3 attempts to PENDING, clears their stored error, leaves every other job
untouched, changes nothing else, and returns the number of jobs reset; when
no job is FAILED with attempts below 3 it is a no-op returning 0. -/
theorem C9_retryFailedJobs (db : Db) :
    (retryFailedJobs db).1 = (db.printJobs.filter retryEligible).length
    ∧ (retryFailedJobs db).2.printJobs
        = db.printJobs.map (fun j =>
            if retryEligible j then
              { j with status := PrintStatus.PENDING, lastError := none }
            else j)
    ∧ (retryFailedJobs db).2.orders = db.orders
    ∧ (retryFailedJobs db).2.events = db.events
    ∧ ((∀ j ∈ db.printJobs, retryEligible j = false) → retryFailedJobs db = (0, db)) := by
  refine ⟨rfl, rfl, rfl, rfl, ?_⟩
  intro hnone
  unfold retryFailedJobs
  have hfilter : db.printJobs.filter retryEligible = [] :=
    List.filter_eq_nil_iff.mpr (fun j hj => by simp [hnone j hj])
  have hmap : db.printJobs.map (fun j =>
      if retryEligible j then
        { j with status := PrintStatus.PENDING, lastError := none }
      else j) = db.printJobs := by
    calc db.printJobs.map (fun j =>
          if retryEligible j then
            { j with status := PrintStatus.PENDING, lastError := none }
          else j)
        = db.printJobs.map id := by
          apply List.map_congr_left
          intro j hj
          simp [hnone j hj]
      _ = db.printJobs := List.map_id db.printJobs
  rw [hfilter, hmap]
  simp

/-- A FAILED print job whose attempt counter is exhausted. -/
def exhaustedJob : PrintJobRow :=
  { id := 0, orderId := 5, printerType := .KITCHEN, status := .FAILED,
    attempts := 3, lastError := some "offline",
    receiptData := { orderNumber := 5, orderTime := 0, customerName := "ann",
                     items := [], specialInstructions := none },
    sentAt := none, printedAt := none, createdAt := 0 }

/-- A SENT print job. -/
def sentJob : PrintJobRow :=
  { id := 1, orderId := 5, printerType := .BEVERAGE, status := .SENT,
    attempts := 1, lastError := none,
    receiptData := { orderNumber := 5, orderTime := 0, customerName := "ann",
                     items := [], specialInstructions := none },
    sentAt := some 2, printedAt := none, createdAt := 0 }

/-- Witness database for the print-retry claims: the exhausted FAILED job and
a SENT job. -/
def exhaustedJobDb : Db :=
  { orders := [], printJobs := [exhaustedJob, sentJob],
    nextOrderId := 6, nextJobId := 2, events := [] }

/-- Witness for C9: on a database holding only a FAILED job with 3 attempts
and a SENT job, `retryFailedJobs` is a no-op returning 0. -/
theorem C9_witness : retryFailedJobs exhaustedJobDb = (0, exhaustedJobDb) :=
  (C9_retryFailedJobs exhaustedJobDb).2.2.2.2 (by decide)

/-! ## Claim C10 -/

/-- Claim C10: `retryJob` sets the targeted job's status to PENDING and
clears its `lastError` whatever its current status was, never changes the
attempts counter, and leaves jobs with other ids untouched. -/
theorem C10_retryJob (db : Db) (jobId : Nat) :
    (retryJob jobId db).printJobs
      = db.printJobs.map (fun j =>
          if j.id = jobId then
            { j with status := PrintStatus.PENDING, lastError := none }
          else j)
    ∧ (∀ j ∈ db.printJobs, j.id = jobId →
        { j with status := PrintStatus.PENDING, lastError := none }
            ∈ (retryJob jobId db).printJobs
        ∧ ({ j with status := PrintStatus.PENDING, lastError := none }).attempts
            = j.attempts)
    ∧ (∀ j ∈ db.printJobs, j.id ≠ jobId → j ∈ (retryJob jobId db).printJobs) := by
  refine ⟨rfl, ?_, ?_⟩
  · intro j hj hid
    constructor
    · have := List.mem_map_of_mem (fun j =>
        if j.id = jobId then
          { j with status := PrintStatus.PENDING, lastError := none }
        else j) hj
      simpa [retryJob, hid] using this
    · rfl
  · intro j hj hid
    have := List.mem_map_of_mem (fun j =>
      if j.id = jobId then
        { j with status := PrintStatus.PENDING, lastError := none }
      else j) hj
    simpa [retryJob, hid] using this

/-- Witness for C10: the exhausted FAILED job (attempts 3, id 0) is reset to
PENDING with its error cleared and its attempts counter intact. -/
theorem C10_witness :
    { exhaustedJob with status := PrintStatus.PENDING, lastError := none }
      ∈ (retryJob 0 exhaustedJobDb).printJobs
    ∧ ({ exhaustedJob with
          status := PrintStatus.PENDING, lastError := none }).attempts = 3 := by
  have h := (C10_retryJob exhaustedJobDb 0).2.1 exhaustedJob
    (by simp [exhaustedJobDb]) (by simp [exhaustedJob])
  exact ⟨h.1, h.2.trans (by simp [exhaustedJob])⟩

/-! ## Claim C7 -/

/-- Order item row bound for the kitchen station. -/
def burgerRow : OrderItemRow :=
  { menuItemId := 2, menuItemName := "Burger", printerDestination := .KITCHEN,
    quantity := 1, unitPrice := 12, totalPrice := 12,
    specialInstructions := none, selectedModifiers := [] }

/-- Order item row bound for the beverage station. -/
def latteRow : OrderItemRow :=
  { menuItemId := 1, menuItemName := "Latte", printerDestination := .BEVERAGE,
    quantity := 1, unitPrice := 97/10, totalPrice := 97/10,
    specialInstructions := none, selectedModifiers := ["Oat Milk"] }

/-- Order item rows routed to both stations. -/
def mochaRow : OrderItemRow :=
  { menuItemId := 3, menuItemName := "Mocha", printerDestination := .BOTH,
    quantity := 2, unitPrice := 4, totalPrice := 8,
    specialInstructions := none, selectedModifiers := [] }

/-- A second BOTH-destination order item row. -/
def teaRow : OrderItemRow :=
  { menuItemId := 4, menuItemName := "Tea", printerDestination := .BOTH,
    quantity := 1, unitPrice := 3, totalPrice := 3,
    specialInstructions := none, selectedModifiers := [] }

/-- Helper building a confirmed order over the given item rows. -/
def confirmedOrderWith (items : List OrderItemRow) : OrderRow :=
  { id := 70, orderNumber := 70, userId := 1, user := sampleUser,
    status := .CONFIRMED, paymentStatus := .PAID,
    subtotal := 0, taxAmount := 0, totalAmount := 0,
    stripePaymentIntentId := some 1, estimatedReadyTime := 0,
    actualReadyTime := none, specialInstructions := none, createdAt := 0,
    items := items }

/-- Claim C7: `createPrintJobs` creates exactly one PENDING job per station
with at least one routed item and none for a station with zero routed items;
an item routes to KITCHEN when its destination is KITCHEN or BOTH and to
BEVERAGE when BEVERAGE or BOTH; each job's receipt payload lists exactly that
station's items.  An order with one KITCHEN and one BEVERAGE item yields two
jobs, one per station, each listing only its own item, and an order with only
BOTH-destination items yields two jobs listing the same items. -/
theorem C7_createPrintJobs_spec (order : OrderRow) (now : Nat) (db : Db) :
    (∀ j ∈ (createPrintJobs order now db).1,
        j.status = PrintStatus.PENDING ∧ j.orderId = order.id
        ∧ j.receiptData.items
            = (getItemsForPrinter order.items j.printerType).map receiptItemOfRow)
    ∧ ((createPrintJobs order now db).1.filter
          (fun j => j.printerType = PrinterType.KITCHEN)).length
        = (if (getItemsForPrinter order.items .KITCHEN).length > 0 then 1 else 0)
    ∧ ((createPrintJobs order now db).1.filter
          (fun j => j.printerType = PrinterType.BEVERAGE)).length
        = (if (getItemsForPrinter order.items .BEVERAGE).length > 0 then 1 else 0)
    ∧ (createPrintJobs order now db).2.printJobs
        = db.printJobs ++ (createPrintJobs order now db).1
    ∧ (∀ item ∈ order.items,
        (item ∈ getItemsForPrinter order.items .KITCHEN
          ↔ (item.printerDestination = .KITCHEN ∨ item.printerDestination = .BOTH))
        ∧ (item ∈ getItemsForPrinter order.items .BEVERAGE
          ↔ (item.printerDestination = .BEVERAGE ∨ item.printerDestination = .BOTH)))
    ∧ (createPrintJobs (confirmedOrderWith [burgerRow, latteRow]) 0 emptyDb).1.map
          (fun j => (j.printerType, j.status, j.receiptData.items.map (fun it => it.name)))
        = [(PrinterType.KITCHEN, PrintStatus.PENDING, ["Burger"]),
           (PrinterType.BEVERAGE, PrintStatus.PENDING, ["Latte"])]
    ∧ (createPrintJobs (confirmedOrderWith [mochaRow, teaRow]) 0 emptyDb).1.map
          (fun j => (j.printerType, j.status, j.receiptData.items.map (fun it => it.name)))
        = [(PrinterType.KITCHEN, PrintStatus.PENDING, ["Mocha", "Tea"]),
           (PrinterType.BEVERAGE, PrintStatus.PENDING, ["Mocha", "Tea"])] := by
  refine ⟨?_, ?_, ?_, ?_, ?_, rfl, rfl⟩
  · intro j hj
    unfold createPrintJobs at hj
    by_cases hk : (getItemsForPrinter order.items .KITCHEN).length > 0
    · by_cases hb : (getItemsForPrinter order.items .BEVERAGE).length > 0
      · simp only [hk, hb, if_true, List.singleton_append, List.mem_cons,
          List.not_mem_nil, or_false] at hj
        rcases hj with hj | hj <;>
          (subst hj; exact ⟨rfl, rfl, by simp [generateReceiptData]⟩)
      · simp only [hk, hb, if_true, if_false, List.mem_singleton] at hj
        subst hj
        exact ⟨rfl, rfl, by simp [generateReceiptData]⟩
    · by_cases hb : (getItemsForPrinter order.items .BEVERAGE).length > 0
      · simp only [hk, hb, if_true, if_false, List.nil_append,
          List.mem_singleton] at hj
        subst hj
        exact ⟨rfl, rfl, by simp [generateReceiptData]⟩
      · simp [hk, hb] at hj
  · unfold createPrintJobs
    by_cases hk : (getItemsForPrinter order.items .KITCHEN).length > 0 <;>
      by_cases hb : (getItemsForPrinter order.items .BEVERAGE).length > 0 <;>
        simp [hk, hb]
  · unfold createPrintJobs
    by_cases hk : (getItemsForPrinter order.items .KITCHEN).length > 0 <;>
      by_cases hb : (getItemsForPrinter order.items .BEVERAGE).length > 0 <;>
        simp [hk, hb]
  · unfold createPrintJobs
    by_cases hk : (getItemsForPrinter order.items .KITCHEN).length > 0 <;>
      by_cases hb : (getItemsForPrinter order.items .BEVERAGE).length > 0 <;>
        simp [hk, hb]
  · intro item hitem
    constructor <;>
      · rw [getItemsForPrinter, List.mem_filter]
        cases hdest : item.printerDestination <;> simp [hitem, hdest]

/-! ## Claims C5 and C4: status transitions and cancellation refunds -/

/-- Replacing the row found by an id lookup makes the lookup return the
replacement. -/
theorem find?_replace (l : List OrderRow) (oid : Nat) (o o2 : OrderRow)
    (h : l.find? (fun r => r.id = oid) = some o) (hid : o2.id = o.id) :
    (l.map (fun r => if r.id = o2.id then o2 else r)).find? (fun r => r.id = oid)
      = some o2 := by
  induction l with
  | nil => simp at h
  | cons a l ih =>
    by_cases ha : a.id = oid
    · rw [List.find?_cons_of_pos _ (by simpa using ha)] at h
      obtain rfl : a = o := by simpa using h
      rw [List.map_cons, if_pos hid.symm]
      exact List.find?_cons_of_pos _ (by simpa using hid.trans ha)
    · rw [List.find?_cons_of_neg _ (by simpa using ha)] at h
      have hoid : o.id = oid := by simpa using List.find?_some h
      have hcond : ¬ (a.id = o2.id) := fun hh => ha ((hh.trans hid).trans hoid)
      rw [List.map_cons, if_neg hcond,
        List.find?_cons_of_neg _ (by simpa using ha)]
      exact ih h

/-- `findOrder` after `updateOrderRow` returns the replacement row. -/
theorem findOrder_updateOrderRow (db : Db) (oid : Nat) (o o2 : OrderRow)
    (h : findOrder oid db = some o) (hid : o2.id = o.id) :
    findOrder oid (updateOrderRow o2 db) = some o2 :=
  find?_replace db.orders oid o o2 h hid

/-- On a PAID order carrying a payment intent, `refundOrder` with the amount
omitted performs the full gateway refund and persists REFUNDED/CANCELLED. -/
theorem refundOrder_paid (db : Db) (oid : Nat) (o : OrderRow) (pid : Nat)
    (hfind : findOrder oid db = some o)
    (hpid : o.stripePaymentIntentId = some pid)
    (hpay : o.paymentStatus = PaymentStatus.PAID) :
    refundOrder oid none db =
      (.ok { o with paymentStatus := PaymentStatus.REFUNDED,
                    status := OrderStatus.CANCELLED },
       updateOrderRow
         { o with paymentStatus := PaymentStatus.REFUNDED,
                  status := OrderStatus.CANCELLED }
         { db with events :=
             (db.events ++ [Event.refundCall pid (some (jsRound (o.totalAmount * 100)))])
               ++ [Event.persistOrderStatus oid OrderStatus.CANCELLED] }) := by
  have hnr : ¬ (o.paymentStatus = PaymentStatus.REFUNDED) := by
    rw [hpay]; intro hh; exact absurd hh (by simp)
  have hle : ¬ (jsOrQ none o.totalAmount > o.totalAmount) := by
    simp [jsOrQ]
  simp only [refundOrder, hfind, hpid, if_neg hnr, if_neg hle, jsOrQ]
  rw [if_neg (lt_irrefl o.totalAmount)]

/-- Claim C5: the transition relation is total and exact — a transition is
accepted exactly when the (current, attempted) pair is one of the eight
listed ones; every other pair is rejected with an invalid-transition error
naming both states, and an accepted transition persists the new status. -/
theorem C5_statusTransitions :
    (∀ s t : OrderStatus, t ∈ VALID_STATUS_TRANSITIONS s ↔
      ((s = .PENDING ∧ t = .CONFIRMED) ∨ (s = .PENDING ∧ t = .CANCELLED)
        ∨ (s = .CONFIRMED ∧ t = .PREPARING) ∨ (s = .CONFIRMED ∧ t = .CANCELLED)
        ∨ (s = .PREPARING ∧ t = .READY) ∨ (s = .PREPARING ∧ t = .CANCELLED)
        ∨ (s = .READY ∧ t = .COMPLETED) ∨ (s = .READY ∧ t = .CANCELLED)))
    ∧ ∀ db oid o t now, findOrder oid db = some o →
        (o.paymentStatus = PaymentStatus.PAID → o.stripePaymentIntentId ≠ none) →
        ((¬ t ∈ VALID_STATUS_TRANSITIONS o.status →
            updateOrderStatus oid t now db
              = (.error (.invalidTransition o.status t), db))
        ∧ (t ∈ VALID_STATUS_TRANSITIONS o.status →
            ∃ o2, (updateOrderStatus oid t now db).1 = .ok o2 ∧ o2.status = t
              ∧ findOrder oid (updateOrderStatus oid t now db).2 = some o2)) := by
  constructor
  · intro s t
    cases s <;> cases t <;> simp [VALID_STATUS_TRANSITIONS]
  · intro db oid o t now hfind hpi
    constructor
    · intro hnot
      simp only [updateOrderStatus, hfind, if_pos hnot]
    · intro hmem
      simp only [updateOrderStatus, hfind, if_neg (by simpa using hmem : ¬ ¬ t ∈ VALID_STATUS_TRANSITIONS o.status)]
      by_cases hc : t = OrderStatus.CANCELLED ∧ o.paymentStatus = PaymentStatus.PAID
      · obtain ⟨pid, hpid⟩ : ∃ pid, o.stripePaymentIntentId = some pid := by
          cases hopt : o.stripePaymentIntentId with
          | none => exact absurd hopt (hpi hc.2)
          | some pid => exact ⟨pid, rfl⟩
        rw [if_pos hc, refundOrder_paid db oid o pid hfind hpid hc.2]
        simp only []
        have hfind2 : findOrder oid
            (updateOrderRow
              { o with paymentStatus := PaymentStatus.REFUNDED,
                       status := OrderStatus.CANCELLED }
              { db with events :=
                  (db.events ++ [Event.refundCall pid (some (jsRound (o.totalAmount * 100)))])
                    ++ [Event.persistOrderStatus oid OrderStatus.CANCELLED] })
            = some { o with paymentStatus := PaymentStatus.REFUNDED,
                            status := OrderStatus.CANCELLED } :=
          find?_replace db.orders oid o _ hfind rfl
        rw [hfind2]
        exact ⟨_, rfl, rfl,
          find?_replace _ oid
            { o with paymentStatus := PaymentStatus.REFUNDED,
                     status := OrderStatus.CANCELLED } _ hfind2 rfl⟩
      · rw [if_neg hc]
        simp only [hfind]
        exact ⟨_, rfl, rfl, find?_replace db.orders oid o _ hfind rfl⟩

/-- A PAID and intent-carrying PREPARING order used by the C4/C5 witnesses. -/
def paidOrder : OrderRow :=
  { id := 70, orderNumber := 70, userId := 1, user := sampleUser,
    status := .PREPARING, paymentStatus := .PAID,
    subtotal := 97/5, taxAmount := 123/100, totalAmount := 2063/100,
    stripePaymentIntentId := some 42, estimatedReadyTime := 30,
    actualReadyTime := none, specialInstructions := none, createdAt := 0,
    items := [latteRow] }

/-- Database holding exactly the PAID preparing order. -/
def paidOrderDb : Db :=
  { orders := [paidOrder], printJobs := [], nextOrderId := 71, nextJobId := 0,
    events := [] }

/-- Witness for C5: on the PAID preparing order, the COMPLETED transition is
rejected naming both states, and the READY transition succeeds. -/
theorem C5_witness :
    updateOrderStatus 70 OrderStatus.COMPLETED 9 paidOrderDb
      = (.error (.invalidTransition OrderStatus.PREPARING OrderStatus.COMPLETED),
         paidOrderDb)
    ∧ ∃ o2, (updateOrderStatus 70 OrderStatus.READY 9 paidOrderDb).1 = .ok o2
        ∧ o2.status = OrderStatus.READY := by
  have h := (C5_statusTransitions.2 paidOrderDb 70 paidOrder OrderStatus.COMPLETED 9
    (by rfl) (fun _ => by simp [paidOrder])).1
  have h2 := (C5_statusTransitions.2 paidOrderDb 70 paidOrder OrderStatus.READY 9
    (by rfl) (fun _ => by simp [paidOrder])).2
  refine ⟨?_, ?_⟩
  · have := h (by simp [VALID_STATUS_TRANSITIONS, paidOrder])
    simpa [paidOrder] using this
  · obtain ⟨o2, ho1, ho2, _⟩ := h2 (by simp [VALID_STATUS_TRANSITIONS, paidOrder])
    exact ⟨o2, ho1, ho2⟩

/-- Recogniser for gateway refund events. -/
def isRefundEvent : Event → Bool
  | .refundCall _ _ => true
  | .persistOrderStatus _ _ => false

/-- Claim C4: cancelling a PAID order through `updateOrderStatus` makes
exactly one gateway refund call, for the full order total, and that call
happens before any write persisting the CANCELLED status; the order ends
CANCELLED with paymentStatus REFUNDED. -/
theorem C4_cancelPaidRefund (db : Db) (oid : Nat) (o : OrderRow) (pid : Nat) (now : Nat)
    (hfind : findOrder oid db = some o)
    (hpay : o.paymentStatus = PaymentStatus.PAID)
    (hpid : o.stripePaymentIntentId = some pid)
    (hmem : OrderStatus.CANCELLED ∈ VALID_STATUS_TRANSITIONS o.status) :
    (updateOrderStatus oid OrderStatus.CANCELLED now db).2.events
        = db.events
          ++ [Event.refundCall pid (some (jsRound (o.totalAmount * 100))),
              Event.persistOrderStatus oid OrderStatus.CANCELLED,
              Event.persistOrderStatus oid OrderStatus.CANCELLED]
    ∧ (((updateOrderStatus oid OrderStatus.CANCELLED now db).2.events.drop
          db.events.length).filter isRefundEvent).length = 1
    ∧ ((updateOrderStatus oid OrderStatus.CANCELLED now db).2.events.drop
          db.events.length).head?
        = some (Event.refundCall pid (some (jsRound (o.totalAmount * 100))))
    ∧ ∃ o2, (updateOrderStatus oid OrderStatus.CANCELLED now db).1 = .ok o2
        ∧ o2.status = OrderStatus.CANCELLED
        ∧ o2.paymentStatus = PaymentStatus.REFUNDED
        ∧ findOrder oid (updateOrderStatus oid OrderStatus.CANCELLED now db).2 = some o2 := by
  have hc : OrderStatus.CANCELLED = OrderStatus.CANCELLED
      ∧ o.paymentStatus = PaymentStatus.PAID := ⟨rfl, hpay⟩
  have hnn : ¬ ¬ (OrderStatus.CANCELLED ∈ VALID_STATUS_TRANSITIONS o.status) := by
    simpa using hmem
  have hfind2 : findOrder oid
      (updateOrderRow
        { o with paymentStatus := PaymentStatus.REFUNDED,
                 status := OrderStatus.CANCELLED }
        { db with events :=
            (db.events ++ [Event.refundCall pid (some (jsRound (o.totalAmount * 100)))])
              ++ [Event.persistOrderStatus oid OrderStatus.CANCELLED] })
      = some { o with paymentStatus := PaymentStatus.REFUNDED,
                      status := OrderStatus.CANCELLED } :=
    find?_replace db.orders oid o _ hfind rfl
  simp only [updateOrderStatus, hfind, if_neg hnn]
  rw [if_pos (show True ∧ o.paymentStatus = PaymentStatus.PAID from ⟨trivial, hpay⟩),
    refundOrder_paid db oid o pid hfind hpid hpay]
  simp only []
  rw [hfind2]
  simp only []
  have hev : ∀ L : List Event,
      ((db.events ++ [Event.refundCall pid (some (jsRound (o.totalAmount * 100)))])
          ++ [Event.persistOrderStatus oid OrderStatus.CANCELLED]) ++ L
        = db.events
          ++ (Event.refundCall pid (some (jsRound (o.totalAmount * 100)))
              :: Event.persistOrderStatus oid OrderStatus.CANCELLED :: L) := by
    intro L
    simp [List.append_assoc]
  refine ⟨?_, ?_, ?_, ?_⟩
  · show ((db.events ++ [Event.refundCall pid (some (jsRound (o.totalAmount * 100)))])
          ++ [Event.persistOrderStatus oid OrderStatus.CANCELLED])
        ++ [Event.persistOrderStatus oid OrderStatus.CANCELLED] = _
    rw [hev]
  · show (((((db.events ++ [Event.refundCall pid (some (jsRound (o.totalAmount * 100)))])
          ++ [Event.persistOrderStatus oid OrderStatus.CANCELLED])
        ++ [Event.persistOrderStatus oid OrderStatus.CANCELLED]).drop
          db.events.length).filter isRefundEvent).length = 1
    rw [hev, List.drop_left]
    simp [isRefundEvent]
  · show ((((db.events ++ [Event.refundCall pid (some (jsRound (o.totalAmount * 100)))])
          ++ [Event.persistOrderStatus oid OrderStatus.CANCELLED])
        ++ [Event.persistOrderStatus oid OrderStatus.CANCELLED]).drop
          db.events.length).head? = _
    rw [hev, List.drop_left]
    rfl
  · refine ⟨_, rfl, rfl, rfl, ?_⟩
    exact find?_replace _ oid
      { o with paymentStatus := PaymentStatus.REFUNDED,
               status := OrderStatus.CANCELLED } _ hfind2 rfl

/-- Witness for C4 on the PAID preparing order: cancelling produces the
refund call for the full total ahead of the CANCELLED persists, and the
order ends CANCELLED and REFUNDED. -/
theorem C4_witness :
    (updateOrderStatus 70 OrderStatus.CANCELLED 9 paidOrderDb).2.events
      = [Event.refundCall 42 (some 2063),
         Event.persistOrderStatus 70 OrderStatus.CANCELLED,
         Event.persistOrderStatus 70 OrderStatus.CANCELLED]
    ∧ ∃ o2, (updateOrderStatus 70 OrderStatus.CANCELLED 9 paidOrderDb).1 = .ok o2
        ∧ o2.status = OrderStatus.CANCELLED
        ∧ o2.paymentStatus = PaymentStatus.REFUNDED := by
  have h := C4_cancelPaidRefund paidOrderDb 70 paidOrder 42 9 (by rfl)
    (by rfl) (by rfl) (by simp [VALID_STATUS_TRANSITIONS, paidOrder])
  constructor
  · rw [h.1]
    simp [paidOrderDb, paidOrder]
    norm_num [jsRound, Int.floor_eq_iff]
  · obtain ⟨o2, h1, h2, h3, _⟩ := h.2.2.2
    exact ⟨o2, h1, h2, h3⟩

/-! ## Claim C1 -/

/-- Appending a row with a fresh id makes lookup by that id find it. -/
theorem find?_append_fresh (l : List OrderRow) (r : OrderRow) (oid : Nat)
    (h : ∀ x ∈ l, x.id ≠ oid) (hr : r.id = oid) :
    (l ++ [r]).find? (fun x => x.id = oid) = some r := by
  induction l with
  | nil =>
    rw [List.nil_append]
    exact List.find?_cons_of_pos _ (by simpa using hr)
  | cons a t ih =>
    rw [List.cons_append,
      List.find?_cons_of_neg _ (by simpa using h a (List.mem_cons_self a t))]
    exact ih (fun x hx => h x (List.mem_cons_of_mem a hx))

/-- The catch-handler refund attempt never touches the orders table. -/
theorem attemptRefund_orders (env : PaymentEnv) (pid : Nat) (d : Db) :
    (attemptRefund env pid d).orders = d.orders := by
  unfold attemptRefund
  split <;> rfl

/-- The catch-handler refund attempt never touches the print jobs table. -/
theorem attemptRefund_printJobs (env : PaymentEnv) (pid : Nat) (d : Db) :
    (attemptRefund env pid d).printJobs = d.printJobs := by
  unfold attemptRefund
  split <;> rfl

/-- Counterexample to claim C1 as stated: with payment-intent creation
succeeding and confirmation returning the non-succeeded status
`requires_action`, `createOrder` raises the payment-failed error but the
provisional order row is still present on subsequent lookup by its id (in
PENDING state) — it is not deleted, because the catch handler deletes the
provisional order only when no payment intent was created. -/
theorem C1_counterexample :
    (createOrder sampleCatalog declinedEnv 3 sampleUser sampleDTO emptyDb).1
        = .error (.paymentFailed "requires_action")
    ∧ (findOrder 0
        (createOrder sampleCatalog declinedEnv 3 sampleUser sampleDTO emptyDb).2).isSome
        = true
    ∧ ((findOrder 0
        (createOrder sampleCatalog declinedEnv 3 sampleUser sampleDTO emptyDb).2).map
          (fun o => o.status)) = some OrderStatus.PENDING := by
  exact ⟨rfl, rfl, rfl⟩

/-- Claim C1 as amended: when payment confirmation returns a non-succeeded
status, `createOrder` re-raises a payment-failed error, creates no print
jobs, attempts a refund of the created intent, and leaves the provisional
order row in place in PENDING/PENDING state (it is not deleted, since a
payment intent was created); in particular the run leaves no CONFIRMED order
behind that was not already in the database. -/
theorem C1_failedPaymentKeepsProvisional (cat : Catalog) (env : PaymentEnv)
    (userId : Nat) (user : UserRec) (data : CreateOrderDTO) (db : Db)
    (validated : List ValidatedOrderItem)
    (hval : validateOrderItems cat data.items = .ok validated)
    (hic : env.intentCreateFails = false)
    (hcf : env.confirmFails = false)
    (hcs : env.confirmStatus ≠ "succeeded")
    (hfresh : ∀ x ∈ db.orders, x.id ≠ db.nextOrderId) :
    (createOrder cat env userId user data db).1
        = .error (.paymentFailed env.confirmStatus)
    ∧ (createOrder cat env userId user data db).2.printJobs = db.printJobs
    ∧ (∃ row, findOrder db.nextOrderId (createOrder cat env userId user data db).2
          = some row
        ∧ row.status = OrderStatus.PENDING ∧ row.paymentStatus = PaymentStatus.PENDING)
    ∧ (∀ x ∈ (createOrder cat env userId user data db).2.orders,
        x.status = OrderStatus.CONFIRMED → x ∈ db.orders)
    ∧ (env.refundFails = false →
        (createOrder cat env userId user data db).2.events
          = db.events ++ [Event.persistOrderStatus db.nextOrderId OrderStatus.PENDING,
                          Event.refundCall env.intentId none]) := by
  simp only [createOrder, hval, hic, hcf, Bool.false_eq_true, if_false, if_pos hcs]
  refine ⟨by simp, ?_, ?_, ?_, ?_⟩
  · rw [attemptRefund_printJobs]
  · unfold findOrder
    rw [attemptRefund_orders]
    exact ⟨_, find?_append_fresh db.orders _ db.nextOrderId hfresh rfl, rfl, rfl⟩
  · intro x hx hconf
    rw [attemptRefund_orders] at hx
    rcases List.mem_append.mp hx with hmem | hmem
    · exact hmem
    · exact absurd hconf (by
        have := List.mem_singleton.mp hmem
        subst this
        simp)
  · intro hrf
    simp [attemptRefund, hrf, List.append_assoc]

/-- Witness for the amended C1 at the concrete declined run. -/
theorem C1_witness :
    (createOrder sampleCatalog declinedEnv 3 sampleUser sampleDTO emptyDb).2.printJobs
        = []
    ∧ (createOrder sampleCatalog declinedEnv 3 sampleUser sampleDTO emptyDb).2.events
        = [Event.persistOrderStatus 0 OrderStatus.PENDING, Event.refundCall 42 none] := by
  cases hval : validateOrderItems sampleCatalog sampleDTO.items with
  | error e =>
    have hok : (validateOrderItems sampleCatalog sampleDTO.items).isOk = true := rfl
    rw [hval] at hok
    simp [Except.isOk, Except.toBool] at hok
  | ok v =>
    have h := C1_failedPaymentKeepsProvisional sampleCatalog declinedEnv 3 sampleUser
      sampleDTO emptyDb v hval rfl rfl (by simp [declinedEnv]) (by simp [emptyDb])
    exact ⟨h.2.1, (h.2.2.2.2 rfl)⟩

/-! ## Claim C2 -/

/-- A successful group-constraint loop means every group satisfies its
minimum and maximum selection bounds. -/
theorem checkGroups_ok (cat : Catalog) (selected : List ModifierSnapshot)
    (gs : List ModifierGroupRow) (h : checkGroups cat selected gs = .ok ()) :
    ∀ g ∈ gs,
      (g.isRequired = true → 0 < g.minSelections →
        g.minSelections ≤ groupSelectionCount cat g selected)
      ∧ (∀ k, g.maxSelections = some k →
        groupSelectionCount cat g selected ≤ k) := by
  induction gs with
  | nil => intro g hg; exact absurd hg (by simp)
  | cons g0 rest ih =>
    unfold checkGroups at h
    by_cases hcond : (g0.isRequired && decide (0 < g0.minSelections)
        && decide (groupSelectionCount cat g0 selected < g0.minSelections)) = true
    · rw [if_pos hcond] at h
      exact absurd h (by simp)
    · rw [if_neg hcond] at h
      have hmin : g0.isRequired = true → 0 < g0.minSelections →
          g0.minSelections ≤ groupSelectionCount cat g0 selected := by
        intro hreq hpos
        by_contra hlt
        exact hcond (by simp [hreq, hpos, Nat.lt_of_not_le hlt])
      cases hmax : g0.maxSelections with
      | some k =>
        simp only [hmax] at h
        by_cases hgt : groupSelectionCount cat g0 selected > k
        · rw [if_pos hgt] at h
          exact absurd h (by simp)
        · rw [if_neg hgt] at h
          intro g hg
          rcases List.mem_cons.mp hg with rfl | hmem
          · exact ⟨hmin, fun k2 hk2 => by
              rw [hmax] at hk2
              obtain rfl : k = k2 := by simpa using hk2
              exact Nat.le_of_not_lt hgt⟩
          · exact ih h g hmem
      | none =>
        simp only [hmax] at h
        intro g hg
        rcases List.mem_cons.mp hg with rfl | hmem
        · exact ⟨hmin, fun k2 hk2 => absurd hk2 (by simp [hmax])⟩
        · exact ih h g hmem

/-- A successful `validateLine` on a line that selects at least one modifier
has run the group-constraint loop on the looked-up menu item's groups with
the line's resolved modifiers. -/
theorem validateLine_ok_checkGroups (cat : Catalog) (item : OrderItemInput)
    (mi : MenuItemRow) (v : ValidatedOrderItem)
    (hfind : cat.menuItems.find? (fun m => m.id = item.menuItemId) = some mi)
    (hsel : item.selectedModifiers ≠ [])
    (h : validateLine cat item = .ok v) :
    checkGroups cat v.modifiers mi.modifierGroups = .ok () := by
  unfold validateLine at h
  split at h
  · exact absurd h (by simp)
  · rename_i mi2 hfind2
    obtain rfl : mi2 = mi := by
      rw [hfind2] at hfind
      simpa using hfind
    split at h
    · exact absurd h (by simp)
    · split at h
      · exact absurd h (by simp)
      · rename_i selected hstep
        simp only [Except.ok.injEq] at h
        subst h
        unfold modifierSelectionStep at hstep
        rw [if_pos (by
          cases hs : item.selectedModifiers with
          | nil => exact absurd hs hsel
          | cons a t => simp [hs])] at hstep
        split at hstep
        · exact absurd hstep (by simp)
        · split at hstep
          · exact absurd hstep (by simp)
          · rename_i u hcheck
            obtain rfl : _ = selected := by simpa using hstep
            cases u
            exact hcheck

/-- Counterexample to claim C2 as stated: on a catalog whose only menu item
carries a required modifier group with `minSelections = 2`, a cart line that
selects no modifiers at all passes validation — the group-constraint loop is
skipped for lines with an empty selection list. -/
theorem C2_counterexample :
    sampleGroup.isRequired = true
    ∧ sampleGroup.minSelections = 2
    ∧ ((sampleCatalog.menuItems.find? (fun m => m.id = 1)).map
        (fun m => m.modifierGroups)) = some [sampleGroup]
    ∧ (sampleLine []).selectedModifiers = []
    ∧ (validateOrderItems sampleCatalog [sampleLine []]).isOk = true :=
  ⟨rfl, rfl, rfl, rfl, rfl⟩

/-- Claim C2 as amended: for a cart line that selects at least one modifier,
every modifier group of the referenced menu item is checked — validation
succeeds only when each required group with positive minimum has at least
that many selected modifiers in it and no group with a finite maximum
exceeds it; with a `minSelections = 2, maxSelections = 2` group, lines
selecting 1 or 3 modifiers of the group are rejected with the respective
error and a line selecting exactly 2 is accepted.  A line selecting no
modifiers at all, however, bypasses the group checks entirely and is
accepted even when the required minimum is unmet. -/
theorem C2_groupConstraints :
    (∀ cat (line : OrderItemInput) mi v,
      cat.menuItems.find? (fun m => m.id = line.menuItemId) = some mi →
      line.selectedModifiers ≠ [] →
      validateOrderItems cat [line] = .ok v →
      ∃ vi, v = [vi]
        ∧ ∀ g ∈ mi.modifierGroups,
            (g.isRequired = true → 0 < g.minSelections →
              g.minSelections ≤ groupSelectionCount cat g vi.modifiers)
            ∧ (∀ k, g.maxSelections = some k →
              groupSelectionCount cat g vi.modifiers ≤ k))
    ∧ validateOrderItems sampleCatalog [sampleLine [21]]
        = .error (.insufficientSelections "Size" 2)
    ∧ (validateOrderItems sampleCatalog [sampleLine [21, 22]]).isOk = true
    ∧ validateOrderItems sampleCatalog [sampleLine [21, 22, 23]]
        = .error (.tooManySelections "Size" 2)
    ∧ (validateOrderItems sampleCatalog [sampleLine []]).isOk = true := by
  refine ⟨?_, rfl, rfl, rfl, rfl⟩
  intro cat line mi v hfind hsel hok
  unfold validateOrderItems at hok
  split at hok
  · exact absurd hok (by simp)
  · rename_i v1 hline
    rw [show validateOrderItems cat [] = .ok [] from rfl] at hok
    simp only [Except.ok.injEq] at hok
    subst hok
    exact ⟨v1, rfl,
      checkGroups_ok cat v1.modifiers mi.modifierGroups
        (validateLine_ok_checkGroups cat line mi v1 hfind hsel hline)⟩

/-- Witness for the amended C2 at the 2-of-2 boundary catalog. -/
theorem C2_witness :
    ∃ v, validateOrderItems sampleCatalog [sampleLine [21, 22]] = .ok v
      ∧ ∃ vi, v = [vi]
        ∧ 2 ≤ groupSelectionCount sampleCatalog sampleGroup vi.modifiers := by
  cases hrun : validateOrderItems sampleCatalog [sampleLine [21, 22]] with
  | error e =>
    have hok : (validateOrderItems sampleCatalog [sampleLine [21, 22]]).isOk = true := rfl
    rw [hrun] at hok
    simp [Except.isOk, Except.toBool] at hok
  | ok v =>
    obtain ⟨vi, hv, hgroups⟩ := C2_groupConstraints.1 sampleCatalog (sampleLine [21, 22])
      (sampleCatalog.menuItems.get ⟨0, by simp [sampleCatalog]⟩) v rfl (by simp [sampleLine]) hrun
    refine ⟨v, rfl, vi, hv, ?_⟩
    have := (hgroups sampleGroup (by simp [sampleCatalog])).1 rfl (by simp [sampleGroup])
    simpa [sampleGroup] using this

/-! ## Claim C8 -/

/-- Marking a list of jobs SENT one update at a time amounts to a single map
over the job table. -/
theorem foldl_markJobSent_printJobs (L : List PrintJobRow) (now : Nat) (d : Db) :
    (L.foldl (fun acc j => markJobSent j.id now acc) d).printJobs
      = d.printJobs.map (fun j =>
          if L.any (fun x => x.id = j.id) then
            { j with status := PrintStatus.SENT, sentAt := some now }
          else j) := by
  induction L generalizing d with
  | nil => simp
  | cons a t ih =>
    rw [List.foldl_cons, ih]
    show (d.printJobs.map (fun j =>
        if j.id = a.id then { j with status := PrintStatus.SENT, sentAt := some now }
        else j)).map _ = _
    rw [List.map_map]
    apply List.map_congr_left
    intro j _
    by_cases h1 : a.id = j.id
    · cases hta : t.any (fun x => decide (x.id = j.id)) <;>
        simp [Function.comp_apply, h1, hta]
    · have hsym : ¬ (j.id = a.id) := fun hh => h1 hh.symm
      have hda : decide (a.id = j.id) = false := by simp [h1]
      simp only [Function.comp_apply, if_neg hsym, List.any_cons, hda,
        Bool.false_or]

/-- Counterexample database for C8: a single PENDING job. -/
def pendingJob : PrintJobRow :=
  { id := 0, orderId := 5, printerType := .KITCHEN, status := .PENDING,
    attempts := 0, lastError := none,
    receiptData := { orderNumber := 5, orderTime := 0, customerName := "ann",
                     items := [], specialInstructions := none },
    sentAt := none, printedAt := none, createdAt := 0 }

/-- Database holding only the PENDING job. -/
def pullDb : Db :=
  { orders := [], printJobs := [pendingJob], nextOrderId := 6, nextJobId := 1,
    events := [] }

/-- The interleaved execution of two pull requests: both fetch before either
marks. -/
def interleavedPulls : ConcState :=
  runPulls 1 { db := pullDb, agentA := none, agentB := none }
    [.fetchA, .fetchB, .markA, .markB]

/-- Counterexample to claim C8 as stated: the pull endpoint fetches the
PENDING jobs and marks them SENT in separate database operations, so in the
interleaving where both requests fetch before either marks, both agents
receive the same job while it is still PENDING — the fetch-and-mark is not
one atomic step. -/
theorem C8_counterexample :
    interleavedPulls.agentA = some [pendingJob]
    ∧ interleavedPulls.agentB = some [pendingJob]
    ∧ pendingJob.status = PrintStatus.PENDING :=
  ⟨rfl, rfl, rfl⟩

/-- Claim C8 as amended: a pull returns the PENDING jobs (capped at 100 rows)
and then marks each returned job SENT in separate follow-up updates; once a
pull has completed, a subsequent pull can never receive any of the same jobs
again — but the fetch and the marking are not one atomic step, so two
overlapping pulls may both receive the same job while it is still PENDING
(see the counterexample). -/
theorem C8_pullThenMark (now now2 : Nat) (db : Db) :
    (pullPendingJobs now db).1
        = (db.printJobs.filter (fun j => j.status = PrintStatus.PENDING)).take 100
    ∧ (pullPendingJobs now db).2.printJobs
        = db.printJobs.map (fun j =>
            if (pullPendingJobs now db).1.any (fun x => x.id = j.id) then
              { j with status := PrintStatus.SENT, sentAt := some now }
            else j)
    ∧ ((pullPendingJobs now2 (pullPendingJobs now db).2).1.all (fun j2 =>
          (pullPendingJobs now db).1.all (fun j1 => j1.id ≠ j2.id))) = true := by
  refine ⟨rfl, foldl_markJobSent_printJobs (getPendingJobs db) now db, ?_⟩
  rw [List.all_eq_true]
  intro j2 hj2
  rw [List.all_eq_true]
  intro j1 hj1
  simp only [decide_eq_true_eq]
  intro heq
  have hj2' : j2 ∈ (pullPendingJobs now2 (pullPendingJobs now db).2).1 := hj2
  have hj2f : j2 ∈ ((pullPendingJobs now db).2.printJobs.filter
      (fun j => j.status = PrintStatus.PENDING)) :=
    List.take_subset _ _ hj2'
  obtain ⟨hmem2, hstat2⟩ := List.mem_filter.mp hj2f
  have hpj2 : (pullPendingJobs now db).2.printJobs
      = db.printJobs.map (fun j =>
          if (getPendingJobs db).any (fun x => x.id = j.id) then
            { j with status := PrintStatus.SENT, sentAt := some now }
          else j) := foldl_markJobSent_printJobs (getPendingJobs db) now db
  rw [hpj2] at hmem2
  obtain ⟨j0, hj0mem, hj0eq⟩ := List.mem_map.mp hmem2
  by_cases hc : (getPendingJobs db).any (fun x => x.id = j0.id) = true
  · rw [if_pos hc] at hj0eq
    rw [← hj0eq] at hstat2
    exact absurd hstat2 (by simp)
  · rw [if_neg hc] at hj0eq
    subst hj0eq
    have hj1g : j1 ∈ getPendingJobs db := hj1
    exact hc (List.any_eq_true.mpr ⟨j1, hj1g, by simp [heq]⟩)

end Cafe
